import Mathlib

/-!
Shallow embedding of the social interaction engine of the daily-novel
repository: `app/services/social_service.py` over the SQLModel schema of
`app/models.py`.

Modelling conventions: each database table is a list of rows kept in rowid
(insertion) order; `session.get(Model, pk)` is a scan for the first row with
that primary key; `select(...).first()` is `List.find?`; `session.delete`
removes the found row; updating a fetched row and re-adding it rewrites the
row with that primary key in place.  `datetime.utcnow()` reads a logical
clock `now` carried in the state (real time is monotone; the clock is free
to advance between calls).  Row ids are allocated from a single counter
`next_id`; timestamps are naturals, and the order-preserving `isoformat`
string rendering is dropped.  Rows keep the columns the engine reads.
-/

/-- `MessageStatus` enum of `app/models.py`. -/
inductive MessageStatus where
  | pending
  | accepted
  | declined
deriving DecidableEq

/-- `ConversationStatus` enum of `app/models.py`. -/
inductive ConversationStatus where
  | active
  | archived
  | blocked
deriving DecidableEq

/-- `User` row, restricted to the columns the social engine reads. -/
structure User where
  id : Nat
  display_name : String
deriving DecidableEq

/-- `DailyEntry` row, restricted to the columns the engine reads. -/
structure DailyEntry where
  id : Nat
  author_id : Nat
  is_shared : Bool
deriving DecidableEq

/-- `ReflectionLike` row. -/
structure ReflectionLike where
  id : Nat
  user_id : Nat
  daily_entry_id : Nat
  created_at : Nat
deriving DecidableEq

/-- `ContactRequest` row. -/
structure ContactRequest where
  id : Nat
  sender_id : Nat
  recipient_id : Nat
  daily_entry_id : Nat
  message : String
  status : MessageStatus
  created_at : Nat
  responded_at : Option Nat
deriving DecidableEq

/-- `Conversation` row. -/
structure Conversation where
  id : Nat
  user1_id : Nat
  user2_id : Nat
  status : ConversationStatus
  created_at : Nat
  last_message_at : Option Nat
deriving DecidableEq

/-- `DirectMessage` row. -/
structure DirectMessage where
  id : Nat
  conversation_id : Nat
  sender_id : Nat
  message_text : String
  created_at : Nat
  is_read : Bool
deriving DecidableEq

/-- `ContactRequestCreate` request schema. -/
structure ContactRequestCreate where
  recipient_id : Nat
  daily_entry_id : Nat
  message : String
deriving DecidableEq

/-- `DirectMessageCreate` request schema. -/
structure DirectMessageCreate where
  conversation_id : Nat
  message_text : String
deriving DecidableEq

/-- `DirectMessageResponse` schema (`created_at` kept numeric). -/
structure DirectMessageResponse where
  id : Nat
  sender_display_name : String
  message_text : String
  created_at : Nat
  is_read : Bool
deriving DecidableEq

/-- `ConversationResponse` schema (`last_message_at` kept numeric). -/
structure ConversationResponse where
  id : Nat
  other_user_display_name : String
  last_message_at : Option Nat
  unread_count : Nat
deriving DecidableEq

/-- The relational store: one list per table in rowid order, the id
allocator, and the logical clock standing for `datetime.utcnow`. -/
structure DB where
  users : List User
  daily_entries : List DailyEntry
  reflection_likes : List ReflectionLike
  contact_requests : List ContactRequest
  conversations : List Conversation
  direct_messages : List DirectMessage
  next_id : Nat
  now : Nat
deriving DecidableEq

namespace SocialService

/-- `session.get(DailyEntry, entry_id)`. -/
def getEntry (db : DB) (entry_id : Nat) : Option DailyEntry :=
  db.daily_entries.find? (fun e => e.id == entry_id)

/-- `session.get(ContactRequest, request_id)`. -/
def getRequest (db : DB) (request_id : Nat) : Option ContactRequest :=
  db.contact_requests.find? (fun r => r.id == request_id)

/-- `session.get(Conversation, conversation_id)`. -/
def getConversation (db : DB) (conversation_id : Nat) : Option Conversation :=
  db.conversations.find? (fun c => c.id == conversation_id)

/-- `session.get(User, user_id)`. -/
def getUser (db : DB) (user_id : Nat) : Option User :=
  db.users.find? (fun u => u.id == user_id)

/-- The like-row lookup shared by `toggle_like` and `user_has_liked_entry`. -/
def likeProbe (user_id entry_id : Nat) : ReflectionLike → Bool :=
  fun l => l.user_id == user_id && l.daily_entry_id == entry_id

/-- `SocialService.toggle_like` (social_service.py, lines 24-50). -/
def toggle_like (user_id entry_id : Nat) (db : DB) : Bool × DB :=
  match getEntry db entry_id with
  | none => (false, db)
  | some entry =>
    if !entry.is_shared || entry.author_id == user_id then (false, db)
    else
      match db.reflection_likes.find? (likeProbe user_id entry_id) with
      | some _ =>
        (false, { db with
          reflection_likes := db.reflection_likes.eraseP (likeProbe user_id entry_id) })
      | none =>
        let like : ReflectionLike :=
          { id := db.next_id, user_id := user_id, daily_entry_id := entry_id,
            created_at := db.now }
        (true, { db with
          reflection_likes := db.reflection_likes ++ [like],
          next_id := db.next_id + 1 })

/-- `SocialService.get_entry_likes_count` (lines 52-56). -/
def get_entry_likes_count (entry_id : Nat) (db : DB) : Nat :=
  (db.reflection_likes.filter (fun l => l.daily_entry_id == entry_id)).length

/-- `SocialService.user_has_liked_entry` (lines 58-67). -/
def user_has_liked_entry (user_id entry_id : Nat) (db : DB) : Bool :=
  (db.reflection_likes.find? (likeProbe user_id entry_id)).isSome

/-- The duplicate-request lookup of `send_contact_request` (lines 85-91). -/
def requestProbe (sender_id : Nat) (request_data : ContactRequestCreate) :
    ContactRequest → Bool :=
  fun r =>
    r.sender_id == sender_id && r.recipient_id == request_data.recipient_id &&
      r.daily_entry_id == request_data.daily_entry_id

/-- `SocialService.send_contact_request` (lines 70-107). -/
def send_contact_request (sender_id : Nat) (request_data : ContactRequestCreate)
    (db : DB) : Option ContactRequest × DB :=
  match getEntry db request_data.daily_entry_id with
  | none => (none, db)
  | some entry =>
    if !entry.is_shared || entry.author_id != request_data.recipient_id then (none, db)
    else if !user_has_liked_entry sender_id request_data.daily_entry_id db then (none, db)
    else
      match db.contact_requests.find? (requestProbe sender_id request_data) with
      | some existing => (some existing, db)
      | none =>
        let contact_request : ContactRequest :=
          { id := db.next_id, sender_id := sender_id,
            recipient_id := request_data.recipient_id,
            daily_entry_id := request_data.daily_entry_id,
            message := request_data.message,
            status := MessageStatus.pending, created_at := db.now,
            responded_at := none }
        (some contact_request, { db with
          contact_requests := db.contact_requests ++ [contact_request],
          next_id := db.next_id + 1 })

/-- `SocialService._create_conversation` (lines 150-169): canonicalise the
pair to lower-id-first, reuse an existing row, otherwise insert. -/
def create_conversation (user1_id user2_id : Nat) (db : DB) : Conversation × DB :=
  let a := if user1_id > user2_id then user2_id else user1_id
  let b := if user1_id > user2_id then user1_id else user2_id
  match db.conversations.find? (fun c => c.user1_id == a && c.user2_id == b) with
  | some existing => (existing, db)
  | none =>
    let conversation : Conversation :=
      { id := db.next_id, user1_id := a, user2_id := b,
        status := ConversationStatus.active, created_at := db.now,
        last_message_at := none }
    (conversation, { db with
      conversations := db.conversations ++ [conversation],
      next_id := db.next_id + 1 })

/-- `SocialService.respond_to_contact_request` (lines 109-128). -/
def respond_to_contact_request (request_id recipient_id : Nat) (accept : Bool)
    (db : DB) : Option ContactRequest × DB :=
  match getRequest db request_id with
  | none => (none, db)
  | some request =>
    if request.recipient_id != recipient_id then (none, db)
    else
      let updated : ContactRequest :=
        { request with
          status := if accept then MessageStatus.accepted else MessageStatus.declined,
          responded_at := some db.now }
      let db1 : DB :=
        { db with contact_requests :=
            db.contact_requests.map (fun r => if r.id == request_id then updated else r) }
      let db2 : DB :=
        if accept then (create_conversation request.sender_id recipient_id db1).2 else db1
      (some updated, db2)

/-- The unread-count subquery of `get_user_conversations` (lines 190-196). -/
def unreadCount (db : DB) (user_id conv_id : Nat) : Nat :=
  (db.direct_messages.filter (fun m =>
    m.conversation_id == conv_id && m.sender_id != user_id && m.is_read == false)).length

/-- One iteration of the loop of `get_user_conversations` (lines 181-205):
resolve the other participant, skipping the conversation when that user
record is absent. -/
def conversationResponse (db : DB) (user_id : Nat) (conv : Conversation) :
    Option ConversationResponse :=
  let other_user_id := if conv.user1_id == user_id then conv.user2_id else conv.user1_id
  match getUser db other_user_id with
  | none => none
  | some other_user =>
    some { id := conv.id, other_user_display_name := other_user.display_name,
           last_message_at := conv.last_message_at,
           unread_count := unreadCount db user_id conv.id }

/-- `SocialService.get_user_conversations` (lines 171-207). -/
def get_user_conversations (user_id : Nat) (db : DB) : List ConversationResponse :=
  (db.conversations.filter (fun c => c.user1_id == user_id || c.user2_id == user_id)).filterMap
    (conversationResponse db user_id)

/-- `SocialService.send_message` (lines 209-236). -/
def send_message (sender_id : Nat) (message_data : DirectMessageCreate) (db : DB) :
    Option DirectMessage × DB :=
  match getConversation db message_data.conversation_id with
  | none => (none, db)
  | some conversation =>
    if sender_id != conversation.user1_id && sender_id != conversation.user2_id then
      (none, db)
    else
      let message : DirectMessage :=
        { id := db.next_id, conversation_id := message_data.conversation_id,
          sender_id := sender_id, message_text := message_data.message_text,
          created_at := db.now, is_read := false }
      (some message, { db with
        direct_messages := db.direct_messages ++ [message],
        conversations := db.conversations.map (fun c =>
          if c.id == message_data.conversation_id then
            { c with last_message_at := some db.now }
          else c),
        next_id := db.next_id + 1 })

/-- The `order_by(desc(DirectMessage.created_at))` ordering of the message
query (line 252), on the joined (message, sender) pairs; SQL leaves ties to
the engine. -/
def laterFirst (x y : DirectMessage × User) : Prop :=
  y.1.created_at ≤ x.1.created_at

instance : DecidableRel laterFirst :=
  fun x y => Nat.decLe y.1.created_at x.1.created_at

instance : IsTotal (DirectMessage × User) laterFirst :=
  ⟨fun x y => le_total y.1.created_at x.1.created_at⟩

instance : IsTrans (DirectMessage × User) laterFirst :=
  ⟨fun _ _ _ h1 h2 => le_trans h2 h1⟩

/-- The `select(DirectMessage, User).join(User)` inner join of the message
query (lines 248-254), restricted to one conversation: each message of the
conversation paired with its sender row, dropped when the sender is absent. -/
def joinedMessages (db : DB) (conversation_id : Nat) : List (DirectMessage × User) :=
  db.direct_messages.filterMap (fun m =>
    if m.conversation_id == conversation_id then
      (getUser db m.sender_id).map (fun u => (m, u))
    else none)

/-- The row-to-response conversion of `get_conversation_messages`
(lines 259-268). -/
def messageResponse (p : DirectMessage × User) : DirectMessageResponse :=
  { id := p.1.id, sender_display_name := p.2.display_name,
    message_text := p.1.message_text, created_at := p.1.created_at,
    is_read := p.1.is_read }

/-- `SocialService.get_conversation_messages` (lines 238-270). -/
def get_conversation_messages (conversation_id user_id : Nat) (limit : Nat)
    (db : DB) : List DirectMessageResponse :=
  match getConversation db conversation_id with
  | none => []
  | some conversation =>
    if user_id != conversation.user1_id && user_id != conversation.user2_id then []
    else
      (((List.insertionSort laterFirst (joinedMessages db conversation_id)).take
        limit).map messageResponse).reverse

/-- The per-row effect of the update loop of `mark_messages_as_read`
(lines 282-292): rows of the conversation sent by the other user and still
unread get `is_read := true`; all other rows are untouched. -/
def readFlag (conversation_id user_id : Nat) (m : DirectMessage) : DirectMessage :=
  if m.conversation_id == conversation_id && m.sender_id != user_id &&
      m.is_read == false then
    { m with is_read := true }
  else m

/-- `SocialService.mark_messages_as_read` (lines 272-295). -/
def mark_messages_as_read (conversation_id user_id : Nat) (db : DB) : Bool × DB :=
  match getConversation db conversation_id with
  | none => (false, db)
  | some conversation =>
    if user_id != conversation.user1_id && user_id != conversation.user2_id then
      (false, db)
    else
      (true, { db with direct_messages :=
        db.direct_messages.map (readFlag conversation_id user_id) })

/-- One engine step built from the two operations named by the reachability
claim: `toggle_like` and `send_contact_request`, with arbitrary arguments;
the clock may advance between calls. -/
inductive SocialStep : DB → DB → Prop where
  | toggle (user_id entry_id : Nat) (db : DB) :
      SocialStep db (toggle_like user_id entry_id db).2
  | send (sender_id : Nat) (request_data : ContactRequestCreate) (db : DB) :
      SocialStep db (send_contact_request sender_id request_data db).2
  | tick (db : DB) (t : Nat) : SocialStep db { db with now := t }

/-- States reachable through the engine from a store holding no likes and
no contact requests (the engine is the sole writer of both tables). -/
inductive SocialReachable : DB → Prop where
  | init (db : DB) : db.reflection_likes = [] → db.contact_requests = [] →
      SocialReachable db
  | step (db db' : DB) : SocialReachable db → SocialStep db db' → SocialReachable db'

/-- Unordered membership of a conversation row on a pair of users. -/
def pairMatches (a b : Nat) (c : Conversation) : Bool :=
  (c.user1_id == a && c.user2_id == b) || (c.user1_id == b && c.user2_id == a)

/-- Number of conversation rows between an unordered pair of users. -/
def conversationsBetween (a b : Nat) (db : DB) : Nat :=
  (db.conversations.filter (pairMatches a b)).length

/-- Invariant: every conversation row stores its pair lower-id-first. -/
def canonicalPairs (db : DB) : Prop :=
  ∀ c ∈ db.conversations, c.user1_id ≤ c.user2_id

/-- No contact-request row is addressed by a user to themself. -/
def noSelfRequests (db : DB) : Prop :=
  ∀ r ∈ db.contact_requests, r.sender_id ≠ r.recipient_id

/-- Every like targets an entry whose author is someone else (keyed through
the same primary-key lookup the engine itself performs). -/
def likesHonest (db : DB) : Prop :=
  ∀ l ∈ db.reflection_likes, ∀ e, getEntry db l.daily_entry_id = some e →
    e.author_id ≠ l.user_id

end SocialService

/-! Concrete store states used to instantiate the theorems. -/

def userA : User := { id := 1, display_name := "A" }

def userB : User := { id := 2, display_name := "B" }

def userC : User := { id := 3, display_name := "C" }

def entryTen : DailyEntry := { id := 10, author_id := 1, is_shared := true }

/-- Three users and one shared entry authored by user 1; no social rows. -/
def dbBase : DB :=
  { users := [userA, userB, userC], daily_entries := [entryTen],
    reflection_likes := [], contact_requests := [], conversations := [],
    direct_messages := [], next_id := 100, now := 0 }

def likeB : ReflectionLike :=
  { id := 50, user_id := 2, daily_entry_id := 10, created_at := 0 }

/-- `dbBase` after user 2 liked entry 10. -/
def dbLiked : DB := { dbBase with reflection_likes := [likeB] }

def reqPending : ContactRequest :=
  { id := 20, sender_id := 2, recipient_id := 1, daily_entry_id := 10,
    message := "hi", status := MessageStatus.pending, created_at := 0,
    responded_at := none }

/-- `dbLiked` with a pending request from user 2 to user 1. -/
def dbRequested : DB := { dbLiked with contact_requests := [reqPending] }

def reqAccepted : ContactRequest :=
  { reqPending with status := MessageStatus.accepted, responded_at := some 0 }

/-- `dbLiked` with an already-accepted (terminal) request. -/
def dbAccepted : DB := { dbLiked with contact_requests := [reqAccepted] }

def convAB : Conversation :=
  { id := 30, user1_id := 1, user2_id := 2, status := ConversationStatus.active,
    created_at := 0, last_message_at := none }

def msgOne : DirectMessage :=
  { id := 40, conversation_id := 30, sender_id := 2, message_text := "hello",
    created_at := 1, is_read := false }

def msgTwo : DirectMessage :=
  { id := 41, conversation_id := 30, sender_id := 1, message_text := "hey",
    created_at := 2, is_read := false }

/-- `dbBase` with a conversation between users 1 and 2 holding one unread
message from each side. -/
def dbMsgs : DB :=
  { dbBase with conversations := [convAB], direct_messages := [msgOne, msgTwo] }


namespace SocialService

/-- C5: a `send_contact_request` by a sender who has not previously liked
the referenced entry is rejected (returns `none`) and creates no request
row — the whole store is left unchanged — for every message content. -/
theorem send_contact_request_requires_like (sender_id : Nat)
    (request_data : ContactRequestCreate) (db : DB)
    (h : user_has_liked_entry sender_id request_data.daily_entry_id db = false) :
    send_contact_request sender_id request_data db = (none, db) := by
  unfold send_contact_request
  cases hE : getEntry db request_data.daily_entry_id with
  | none => rfl
  | some entry => simp [h]

/-- Witness for C5: user 3 has not liked entry 10 in `dbBase`, and the send
is rejected with the store unchanged. -/
theorem send_contact_request_requires_like_witness :
    user_has_liked_entry 3 10 dbBase = false ∧
      send_contact_request 3
        { recipient_id := 1, daily_entry_id := 10, message := "w" } dbBase =
        (none, dbBase) :=
  ⟨by decide,
    send_contact_request_requires_like 3
      { recipient_id := 1, daily_entry_id := 10, message := "w" } dbBase (by decide)⟩

/-- C6: a `send_message` by a user who is neither participant of the target
conversation is rejected (returns `none`) and leaves the store — in
particular the message table and the conversation's `last_message_at` —
unchanged. -/
theorem send_message_nonparticipant_rejected (sender_id : Nat)
    (message_data : DirectMessageCreate) (db : DB) (c : Conversation)
    (hc : getConversation db message_data.conversation_id = some c)
    (h1 : sender_id ≠ c.user1_id) (h2 : sender_id ≠ c.user2_id) :
    send_message sender_id message_data db = (none, db) := by
  unfold send_message
  rw [hc]
  simp [h1, h2]

/-- Witness for C6: user 3 is not a participant of conversation 30 in
`dbMsgs`, and the send is rejected with the store unchanged. -/
theorem send_message_nonparticipant_rejected_witness :
    getConversation dbMsgs 30 = some convAB ∧ (3 : Nat) ≠ convAB.user1_id ∧
      (3 : Nat) ≠ convAB.user2_id ∧
      send_message 3 { conversation_id := 30, message_text := "x" } dbMsgs =
        (none, dbMsgs) :=
  ⟨by decide, by decide, by decide,
    send_message_nonparticipant_rejected 3
      { conversation_id := 30, message_text := "x" } dbMsgs convAB (by decide)
      (by decide) (by decide)⟩

end SocialService

namespace SocialService

theorem create_conversation_users (u v : Nat) (db : DB) :
    ((create_conversation u v db).2).users = db.users := by
  unfold create_conversation
  dsimp only
  split <;> rfl

theorem create_conversation_requests (u v : Nat) (db : DB) :
    ((create_conversation u v db).2).contact_requests = db.contact_requests := by
  unfold create_conversation
  dsimp only
  split <;> rfl

theorem getRequest_after_update (l : List ContactRequest) (rid : Nat)
    (upd : ContactRequest) (hid : (upd.id == rid) = true) :
    (l.map (fun q => if q.id == rid then upd else q)).find? (fun q => q.id == rid) =
      (l.find? (fun q => q.id == rid)).map (fun _ => upd) := by
  induction l with
  | nil => rfl
  | cons a l ih =>
    by_cases ha : (a.id == rid) = true
    · simp only [List.map_cons, ha, if_true]
      rw [@List.find?_cons_of_pos _ (fun q => q.id == rid) upd _ hid,
        @List.find?_cons_of_pos _ (fun q => q.id == rid) a _ ha,
        Option.map_some']
    · simp only [List.map_cons, ha, Bool.false_eq_true, if_false]
      rw [@List.find?_cons_of_neg _ (fun q => q.id == rid) a _ ha,
        @List.find?_cons_of_neg _ (fun q => q.id == rid) a _ ha,
        ih]

end SocialService

namespace SocialService

/-- C1 (amended): `respond_to_contact_request` performs no terminal-state
check: whenever the request exists and the responder is its recipient, the
call succeeds regardless of the request's current status, and both the
returned and the stored request carry the new status (Accepted or Declined
according to `accept`) and a fresh `responded_at` timestamp; a repeated
response therefore overwrites the first response instead of being
rejected. -/
theorem respond_to_contact_request_overwrites_any_status
    (request_id recipient_id : Nat) (accept : Bool) (db : DB) (r : ContactRequest)
    (hr : getRequest db request_id = some r) (hrec : r.recipient_id = recipient_id) :
    (respond_to_contact_request request_id recipient_id accept db).1 =
      some { r with
        status := if accept then MessageStatus.accepted else MessageStatus.declined,
        responded_at := some db.now } ∧
    getRequest (respond_to_contact_request request_id recipient_id accept db).2
        request_id =
      some { r with
        status := if accept then MessageStatus.accepted else MessageStatus.declined,
        responded_at := some db.now } := by
  have hrid : (r.id == request_id) = true :=
    @List.find?_some _ (fun q : ContactRequest => q.id == request_id) r
      db.contact_requests hr
  unfold respond_to_contact_request
  rw [hr]
  dsimp only
  rw [if_neg (show ¬ ((r.recipient_id != recipient_id) = true) by simp [hrec])]
  dsimp only
  refine ⟨rfl, ?_⟩
  unfold getRequest
  split
  · rw [create_conversation_requests]
    dsimp only
    rw [getRequest_after_update _ _ _ (by simpa using hrid)]
    unfold getRequest at hr
    rw [hr, Option.map_some']
  · dsimp only
    rw [getRequest_after_update _ _ _ (by simpa using hrid)]
    unfold getRequest at hr
    rw [hr, Option.map_some']

/-- Counterexample to C1 as stated: in `dbAccepted` request 20 is already
terminal (Accepted, responded at time 0), yet a further
`respond_to_contact_request` by its recipient is not rejected (returns
non-null) and changes the stored status and `responded_at`. -/
theorem respond_repeat_not_rejected_cex :
    (getRequest dbAccepted 20).map (fun r => (r.status, r.responded_at)) =
      some (MessageStatus.accepted, some 0) ∧
    (respond_to_contact_request 20 1 false { dbAccepted with now := 5 }).1 ≠ none ∧
    (getRequest (respond_to_contact_request 20 1 false
        { dbAccepted with now := 5 }).2 20).map
      (fun r => (r.status, r.responded_at)) =
      some (MessageStatus.declined, some 5) := by
  decide

/-- Witness for C1 (amended) at the already-accepted request of
`dbAccepted`. -/
theorem respond_to_contact_request_overwrites_any_status_witness :
    getRequest dbAccepted 20 = some reqAccepted ∧
    reqAccepted.status = MessageStatus.accepted ∧
    (respond_to_contact_request 20 1 false dbAccepted).1 =
      some { reqAccepted with status := MessageStatus.declined, responded_at := some 0 } ∧
    getRequest (respond_to_contact_request 20 1 false dbAccepted).2 20 =
      some { reqAccepted with status := MessageStatus.declined, responded_at := some 0 } := by
  refine ⟨by decide, by decide, ?_⟩
  exact respond_to_contact_request_overwrites_any_status 20 1 false dbAccepted
    reqAccepted (by decide) (by decide)

end SocialService

namespace SocialService

/-- Appending one matching row to a list with no match: the lookup finds
exactly the appended row. -/
theorem find?_append_single {α : Type} (L : List α) (p : α → Bool) (x : α)
    (hL : L.find? p = none) (hx : p x = true) : (L ++ [x]).find? p = some x := by
  rw [List.find?_append, hL, Option.none_or]
  exact List.find?_cons_of_pos _ hx

/-- Appending one matching row to a list with no match and erasing the
first match removes exactly the appended row. -/
theorem eraseP_append_single {α : Type} (L : List α) (p : α → Bool) (x : α)
    (hL : L.find? p = none) (hx : p x = true) : (L ++ [x]).eraseP p = L := by
  rw [List.eraseP_append_right _ (List.find?_eq_none.mp hL),
    List.eraseP_cons_of_pos hx, List.append_nil]

/-- C3 (amended): for every shared entry and user other than its author,
starting from a state in which the user has not liked the entry, toggling
twice returns `true` then `false`, restores the like table (hence the
likes count) exactly, and leaves `user_has_liked_entry` false. -/
theorem toggle_like_twice_from_unliked (user_id entry_id : Nat) (db : DB)
    (e : DailyEntry) (he : getEntry db entry_id = some e) (hs : e.is_shared = true)
    (ha : e.author_id ≠ user_id)
    (hn : user_has_liked_entry user_id entry_id db = false) :
    (toggle_like user_id entry_id db).1 = true ∧
    (toggle_like user_id entry_id (toggle_like user_id entry_id db).2).1 = false ∧
    ((toggle_like user_id entry_id (toggle_like user_id entry_id db).2).2).reflection_likes =
      db.reflection_likes ∧
    get_entry_likes_count entry_id
        (toggle_like user_id entry_id (toggle_like user_id entry_id db).2).2 =
      get_entry_likes_count entry_id db ∧
    user_has_liked_entry user_id entry_id
        (toggle_like user_id entry_id (toggle_like user_id entry_id db).2).2 = false := by
  have hfind : db.reflection_likes.find? (likeProbe user_id entry_id) = none := by
    unfold user_has_liked_entry at hn
    cases h : db.reflection_likes.find? (likeProbe user_id entry_id) with
    | none => rfl
    | some l => rw [h] at hn; simp at hn
  have hp : likeProbe user_id entry_id
      ({ id := db.next_id, user_id := user_id, daily_entry_id := entry_id,
         created_at := db.now } : ReflectionLike) = true := by
    simp [likeProbe]
  have h1 : toggle_like user_id entry_id db =
      (true, { db with
        reflection_likes := db.reflection_likes ++
          [({ id := db.next_id, user_id := user_id, daily_entry_id := entry_id,
              created_at := db.now } : ReflectionLike)],
        next_id := db.next_id + 1 }) := by
    unfold toggle_like
    rw [he]
    dsimp only
    rw [if_neg (by simp [hs, ha]), hfind]
  rw [h1]
  have h2 : toggle_like user_id entry_id
      ({ db with
        reflection_likes := db.reflection_likes ++
          [({ id := db.next_id, user_id := user_id, daily_entry_id := entry_id,
              created_at := db.now } : ReflectionLike)],
        next_id := db.next_id + 1 } : DB) =
      (false, { db with
        reflection_likes := db.reflection_likes,
        next_id := db.next_id + 1 }) := by
    unfold toggle_like
    rw [show getEntry ({ db with
        reflection_likes := db.reflection_likes ++
          [({ id := db.next_id, user_id := user_id, daily_entry_id := entry_id,
              created_at := db.now } : ReflectionLike)],
        next_id := db.next_id + 1 } : DB) entry_id = some e from he]
    dsimp only
    rw [if_neg (by simp [hs, ha]), find?_append_single _ _ _ hfind hp]
    dsimp only
    rw [eraseP_append_single _ _ _ hfind hp]
  rw [h2]
  refine ⟨rfl, rfl, rfl, rfl, ?_⟩
  unfold user_has_liked_entry
  dsimp only
  rw [hfind]
  rfl

end SocialService

namespace SocialService

/-- Counterexample to C3 as stated: in `dbLiked` user 2 (not the author)
has already liked shared entry 10, so the first of two toggles returns
`false` (the claim says `true`) and after both calls `user_has_liked_entry`
is `true` (the claim says `false`). -/
theorem toggle_like_twice_cex :
    getEntry dbLiked 10 = some entryTen ∧ entryTen.is_shared = true ∧
    entryTen.author_id ≠ 2 ∧
    (toggle_like 2 10 dbLiked).1 = false ∧
    user_has_liked_entry 2 10 (toggle_like 2 10 (toggle_like 2 10 dbLiked).2).2 = true := by
  decide

/-- Witness for C3 (amended) at user 2 and entry 10 of `dbBase`. -/
theorem toggle_like_twice_from_unliked_witness :
    (toggle_like 2 10 dbBase).1 = true ∧
    (toggle_like 2 10 (toggle_like 2 10 dbBase).2).1 = false ∧
    ((toggle_like 2 10 (toggle_like 2 10 dbBase).2).2).reflection_likes =
      dbBase.reflection_likes ∧
    get_entry_likes_count 10 (toggle_like 2 10 (toggle_like 2 10 dbBase).2).2 =
      get_entry_likes_count 10 dbBase ∧
    user_has_liked_entry 2 10 (toggle_like 2 10 (toggle_like 2 10 dbBase).2).2 = false :=
  toggle_like_twice_from_unliked 2 10 dbBase entryTen (by decide) (by decide)
    (by decide) (by decide)

end SocialService

namespace SocialService

/-- Rewriting the request table and id counter does not change entry
lookups. -/
theorem getEntry_set_requests (db : DB) (X : List ContactRequest) (n eid : Nat) :
    getEntry { db with contact_requests := X, next_id := n } eid = getEntry db eid := rfl

/-- Rewriting the request table and id counter does not change like
lookups. -/
theorem user_has_liked_set_requests (db : DB) (X : List ContactRequest) (n u eid : Nat) :
    user_has_liked_entry u eid { db with contact_requests := X, next_id := n } =
      user_has_liked_entry u eid db := rfl

/-- C4: when a send of (sender, recipient, entry) succeeds, sending again
for the same triple — with any message — returns the very same request
record (same id, returned unchanged) and leaves the store untouched: the
second call's output state is the first call's output state, so no second
row is created. -/
theorem send_contact_request_idempotent (sender_id : Nat)
    (rd rd2 : ContactRequestCreate) (db : DB) (e : DailyEntry)
    (he : getEntry db rd.daily_entry_id = some e) (hs : e.is_shared = true)
    (ha : e.author_id = rd.recipient_id)
    (hl : user_has_liked_entry sender_id rd.daily_entry_id db = true)
    (hrec : rd2.recipient_id = rd.recipient_id)
    (hent : rd2.daily_entry_id = rd.daily_entry_id) :
    (send_contact_request sender_id rd db).1.isSome = true ∧
    send_contact_request sender_id rd2 (send_contact_request sender_id rd db).2 =
      send_contact_request sender_id rd db := by
  obtain ⟨rec2, ent2, msg2⟩ := rd2
  dsimp only at hrec hent
  subst hrec hent
  have hprobe : requestProbe sender_id
      ({ recipient_id := rd.recipient_id, daily_entry_id := rd.daily_entry_id,
         message := msg2 } : ContactRequestCreate) = requestProbe sender_id rd := by
    funext r
    simp [requestProbe]
  cases hQ : db.contact_requests.find? (requestProbe sender_id rd) with
  | some ex =>
    have h1 : send_contact_request sender_id rd db = (some ex, db) := by
      unfold send_contact_request
      rw [he]
      dsimp only
      rw [if_neg (by simp [hs, ha]), if_neg (by simp [hl]), hQ]
    rw [h1]
    refine ⟨rfl, ?_⟩
    unfold send_contact_request
    dsimp only
    rw [he]
    dsimp only
    rw [if_neg (by simp [hs, ha]), if_neg (by simp [hl]), hprobe, hQ]
  | none =>
    have hP : requestProbe sender_id rd
        ({ id := db.next_id, sender_id := sender_id,
           recipient_id := rd.recipient_id, daily_entry_id := rd.daily_entry_id,
           message := rd.message, status := MessageStatus.pending,
           created_at := db.now, responded_at := none } : ContactRequest) = true := by
      simp [requestProbe]
    have h1 : send_contact_request sender_id rd db =
        (some ({ id := db.next_id, sender_id := sender_id,
                 recipient_id := rd.recipient_id, daily_entry_id := rd.daily_entry_id,
                 message := rd.message, status := MessageStatus.pending,
                 created_at := db.now, responded_at := none } : ContactRequest),
         { db with
           contact_requests := db.contact_requests ++
             [({ id := db.next_id, sender_id := sender_id,
                 recipient_id := rd.recipient_id, daily_entry_id := rd.daily_entry_id,
                 message := rd.message, status := MessageStatus.pending,
                 created_at := db.now, responded_at := none } : ContactRequest)],
           next_id := db.next_id + 1 }) := by
      unfold send_contact_request
      rw [he]
      dsimp only
      rw [if_neg (by simp [hs, ha]), if_neg (by simp [hl]), hQ]
    rw [h1]
    refine ⟨rfl, ?_⟩
    unfold send_contact_request
    dsimp only
    rw [getEntry_set_requests, he]
    dsimp only
    rw [if_neg (by simp [hs, ha]), user_has_liked_set_requests,
      if_neg (by simp [hl]), hprobe]
    rw [find?_append_single _ _ _ hQ hP]

end SocialService

namespace SocialService

/-- Witness for C4: user 2 sends twice for entry 10 of `dbLiked`. -/
theorem send_contact_request_idempotent_witness :
    (send_contact_request 2
        { recipient_id := 1, daily_entry_id := 10, message := "hi" } dbLiked).1.isSome =
      true ∧
    send_contact_request 2
        { recipient_id := 1, daily_entry_id := 10, message := "again" }
        (send_contact_request 2
          { recipient_id := 1, daily_entry_id := 10, message := "hi" } dbLiked).2 =
      send_contact_request 2
        { recipient_id := 1, daily_entry_id := 10, message := "hi" } dbLiked :=
  send_contact_request_idempotent 2
    { recipient_id := 1, daily_entry_id := 10, message := "hi" }
    { recipient_id := 1, daily_entry_id := 10, message := "again" }
    dbLiked entryTen (by decide) (by decide) (by decide) (by decide) (by decide)
    (by decide)

end SocialService

namespace SocialService

/-- Rewriting the message table does not change conversation lookups. -/
theorem getConversation_set_messages (db : DB) (X : List DirectMessage)
    (conversation_id : Nat) :
    getConversation { db with direct_messages := X } conversation_id =
      getConversation db conversation_id := rfl

/-- The mark-as-read row update is idempotent on every row. -/
theorem readFlag_idem (conversation_id user_id : Nat) (m : DirectMessage) :
    readFlag conversation_id user_id (readFlag conversation_id user_id m) =
      readFlag conversation_id user_id m := by
  unfold readFlag
  by_cases hb : (m.conversation_id == conversation_id && m.sender_id != user_id &&
      m.is_read == false) = true
  · simp only [hb, if_true]
    rw [if_neg (by simp)]
  · simp only [hb, Bool.false_eq_true, if_false]

/-- C8: for a participant, `mark_messages_as_read` returns `true` and sets
`is_read` on exactly the conversation's unread messages from the other
sender (row for row, everything else untouched), drives the requester's
`unreadCount` — the quantity reported by `get_user_conversations` — to 0,
and is idempotent; for a non-participant it returns `false` and mutates
nothing. -/
theorem mark_messages_as_read_spec (conversation_id user_id : Nat) (db : DB)
    (conv : Conversation) (hc : getConversation db conversation_id = some conv)
    (hpart : user_id = conv.user1_id ∨ user_id = conv.user2_id) :
    (mark_messages_as_read conversation_id user_id db).1 = true ∧
    List.Forall₂ (fun m m' =>
        (m.conversation_id = conversation_id ∧ m.sender_id ≠ user_id ∧
            m.is_read = false →
          m' = { m with is_read := true }) ∧
        (¬(m.conversation_id = conversation_id ∧ m.sender_id ≠ user_id ∧
            m.is_read = false) →
          m' = m))
      db.direct_messages
      ((mark_messages_as_read conversation_id user_id db).2).direct_messages ∧
    unreadCount (mark_messages_as_read conversation_id user_id db).2 user_id
        conversation_id = 0 ∧
    mark_messages_as_read conversation_id user_id
        (mark_messages_as_read conversation_id user_id db).2 =
      (true, (mark_messages_as_read conversation_id user_id db).2) ∧
    (∀ s : Nat, s ≠ conv.user1_id → s ≠ conv.user2_id →
      mark_messages_as_read conversation_id s db = (false, db)) := by
  have hguard : (user_id != conv.user1_id && user_id != conv.user2_id) = false := by
    rcases hpart with h | h <;> simp [h]
  have hm : mark_messages_as_read conversation_id user_id db =
      (true, { db with direct_messages :=
        db.direct_messages.map (readFlag conversation_id user_id) }) := by
    unfold mark_messages_as_read
    rw [hc]
    dsimp only
    rw [if_neg (by simp [hguard])]
  rw [hm]
  refine ⟨rfl, ?_, ?_, ?_, ?_⟩
  · dsimp only
    rw [List.forall₂_map_right_iff, List.forall₂_same]
    intro m _
    by_cases hb : (m.conversation_id == conversation_id && m.sender_id != user_id &&
        m.is_read == false) = true
    · have hprop : m.conversation_id = conversation_id ∧ m.sender_id ≠ user_id ∧
          m.is_read = false := by simpa [and_assoc] using hb
      refine ⟨fun _ => ?_, fun hn => absurd hprop hn⟩
      unfold readFlag
      simp only [hb, if_true]
    · have hprop : ¬(m.conversation_id = conversation_id ∧ m.sender_id ≠ user_id ∧
          m.is_read = false) := by simpa [and_assoc] using hb
      refine ⟨fun hp => absurd hp hprop, fun _ => ?_⟩
      unfold readFlag
      simp only [hb, Bool.false_eq_true, if_false]
  · unfold unreadCount
    dsimp only
    rw [show (List.filter (fun m =>
        m.conversation_id == conversation_id && m.sender_id != user_id &&
          m.is_read == false)
        (db.direct_messages.map (readFlag conversation_id user_id))) = []
      from ?_]
    · rfl
    · rw [List.filter_eq_nil_iff]
      intro x hx
      rw [List.mem_map] at hx
      obtain ⟨m, _, hfm⟩ := hx
      by_cases hb : (m.conversation_id == conversation_id && m.sender_id != user_id &&
          m.is_read == false) = true
      · rw [← hfm]
        unfold readFlag
        simp only [hb, if_true]
        simp
      · rw [← hfm]
        unfold readFlag
        simp only [hb, Bool.false_eq_true, if_false]
        exact not_false
  · unfold mark_messages_as_read
    rw [getConversation_set_messages, hc]
    dsimp only
    rw [if_neg (by simp [hguard])]
    rw [List.map_map]
    simp only [Function.comp_def]
    rw [List.map_congr_left (fun m _ => readFlag_idem conversation_id user_id m)]
  · intro s hs1 hs2
    unfold mark_messages_as_read
    rw [hc]
    dsimp only
    rw [if_pos (by simp [hs1, hs2])]

end SocialService

namespace SocialService

/-- Witness for C8 at participant 1 of conversation 30 in `dbMsgs`. -/
theorem mark_messages_as_read_spec_witness :
    (mark_messages_as_read 30 1 dbMsgs).1 = true ∧
    List.Forall₂ (fun m m' =>
        (m.conversation_id = 30 ∧ m.sender_id ≠ 1 ∧ m.is_read = false →
          m' = { m with is_read := true }) ∧
        (¬(m.conversation_id = 30 ∧ m.sender_id ≠ 1 ∧ m.is_read = false) →
          m' = m))
      dbMsgs.direct_messages
      ((mark_messages_as_read 30 1 dbMsgs).2).direct_messages ∧
    unreadCount (mark_messages_as_read 30 1 dbMsgs).2 1 30 = 0 ∧
    mark_messages_as_read 30 1 (mark_messages_as_read 30 1 dbMsgs).2 =
      (true, (mark_messages_as_read 30 1 dbMsgs).2) ∧
    (∀ s : Nat, s ≠ convAB.user1_id → s ≠ convAB.user2_id →
      mark_messages_as_read 30 s dbMsgs = (false, dbMsgs)) :=
  mark_messages_as_read_spec 30 1 dbMsgs convAB (by decide) (by decide)

end SocialService

namespace SocialService

/-- A conversation whose other participant resolves in the user table
contributes its id to the participant's conversation list. -/
theorem conversations_list_mem (db : DB) (u : Nat) (c : Conversation) (ou : User)
    (hc : c ∈ db.conversations) (hpart : c.user1_id = u ∨ c.user2_id = u)
    (hgu : getUser db (if c.user1_id == u then c.user2_id else c.user1_id) = some ou) :
    ∃ resp ∈ get_user_conversations u db, resp.id = c.id := by
  refine ⟨{ id := c.id, other_user_display_name := ou.display_name,
            last_message_at := c.last_message_at,
            unread_count := unreadCount db u c.id }, ?_, rfl⟩
  unfold get_user_conversations
  rw [List.mem_filterMap]
  refine ⟨c, List.mem_filter.mpr ⟨hc, ?_⟩, ?_⟩
  · rcases hpart with h | h <;> simp [h]
  · unfold conversationResponse
    dsimp only
    rw [hgu]

/-- C9: a conversation row of a participant appears in that participant's
`get_user_conversations` output (by id) if and only if the other
participant's user record exists in the identity store; rows whose other
user is missing are silently skipped. -/
theorem get_user_conversations_other_user_exists_iff (db : DB) (u : Nat)
    (c : Conversation) (hc : c ∈ db.conversations)
    (hpart : c.user1_id = u ∨ c.user2_id = u)
    (hids : (db.conversations.map (fun x => x.id)).Nodup) :
    (∃ resp ∈ get_user_conversations u db, resp.id = c.id) ↔
      (∃ ou ∈ db.users,
        ou.id = (if c.user1_id == u then c.user2_id else c.user1_id)) := by
  constructor
  · rintro ⟨resp, hresp, hid⟩
    unfold get_user_conversations at hresp
    rw [List.mem_filterMap] at hresp
    obtain ⟨c', hc', hcr⟩ := hresp
    rw [List.mem_filter] at hc'
    unfold conversationResponse at hcr
    dsimp only at hcr
    cases hgu : getUser db (if c'.user1_id == u then c'.user2_id else c'.user1_id) with
    | none => rw [hgu] at hcr; exact absurd hcr (by simp)
    | some ou =>
      rw [hgu] at hcr
      have hrid : resp.id = c'.id := by
        cases hcr
        rfl
      have hceq : c' = c :=
        List.inj_on_of_nodup_map hids hc'.1 hc (by rw [← hrid, hid])
      subst hceq
      refine ⟨ou, List.mem_of_find?_eq_some hgu, ?_⟩
      have := List.find?_some hgu
      simpa using this
  · rintro ⟨ou, hou, hid⟩
    have hsome : (getUser db (if c.user1_id == u then c.user2_id else c.user1_id)).isSome =
        true :=
      List.find?_isSome.mpr ⟨ou, hou, by simp [hid]⟩
    obtain ⟨ou', hgu⟩ := Option.isSome_iff_exists.mp hsome
    exact conversations_list_mem db u c ou' hc hpart hgu

end SocialService

namespace SocialService

/-- Witness for C9 at conversation 30 and participant 1 of `dbMsgs`. -/
theorem get_user_conversations_other_user_exists_iff_witness :
    ((∃ resp ∈ get_user_conversations 1 dbMsgs, resp.id = convAB.id) ↔
      (∃ ou ∈ dbMsgs.users,
        ou.id = (if convAB.user1_id == 1 then convAB.user2_id else convAB.user1_id))) :=
  get_user_conversations_other_user_exists_iff dbMsgs 1 convAB (by decide)
    (by decide) (by decide)

end SocialService

namespace SocialService

/-- `toggle_like` preserves the two social-table invariants: likes only
target other users' entries, and no request is self-addressed. -/
theorem toggle_like_preserves_inv (user_id entry_id : Nat) (db : DB)
    (h1 : likesHonest db) (h2 : noSelfRequests db) :
    likesHonest (toggle_like user_id entry_id db).2 ∧
      noSelfRequests (toggle_like user_id entry_id db).2 := by
  unfold toggle_like
  cases hE : getEntry db entry_id with
  | none => exact ⟨h1, h2⟩
  | some entry =>
    dsimp only
    by_cases hg : (!entry.is_shared || entry.author_id == user_id) = true
    · rw [if_pos hg]
      exact ⟨h1, h2⟩
    · rw [if_neg hg]
      cases hF : db.reflection_likes.find? (likeProbe user_id entry_id) with
      | some l0 =>
        dsimp only
        refine ⟨?_, fun r hr => h2 r hr⟩
        intro l hl e hgete
        have hl' : l ∈ db.reflection_likes := (List.eraseP_sublist _).mem hl
        exact h1 l hl' e hgete
      | none =>
        dsimp only
        refine ⟨?_, fun r hr => h2 r hr⟩
        intro l hl e hgete
        rcases List.mem_append.mp hl with hold | hnew
        · exact h1 l hold e hgete
        · have hlk : l = { id := db.next_id, user_id := user_id,
                           daily_entry_id := entry_id, created_at := db.now } := by
            simpa using hnew
          subst hlk
          have hge : getEntry db entry_id = some e := hgete
          rw [hE] at hge
          cases hge
          intro hcontra
          apply hg
          simp [hcontra]

/-- `send_contact_request` preserves the two social-table invariants: a
new request requires a like by the sender on the entry, the recipient must
be the entry's author, and the like invariant rules out author self-likes,
so the created row is never self-addressed. -/
theorem send_contact_request_preserves_inv (sender_id : Nat)
    (request_data : ContactRequestCreate) (db : DB)
    (h1 : likesHonest db) (h2 : noSelfRequests db) :
    likesHonest (send_contact_request sender_id request_data db).2 ∧
      noSelfRequests (send_contact_request sender_id request_data db).2 := by
  unfold send_contact_request
  cases hE : getEntry db request_data.daily_entry_id with
  | none => exact ⟨h1, h2⟩
  | some entry =>
    dsimp only
    by_cases hg : (!entry.is_shared ||
        entry.author_id != request_data.recipient_id) = true
    · rw [if_pos hg]
      exact ⟨h1, h2⟩
    · rw [if_neg hg]
      by_cases hlk : (!user_has_liked_entry sender_id request_data.daily_entry_id db) =
          true
      · rw [if_pos hlk]
        exact ⟨h1, h2⟩
      · rw [if_neg hlk]
        cases hQ : db.contact_requests.find? (requestProbe sender_id request_data) with
        | some ex => exact ⟨h1, h2⟩
        | none =>
          dsimp only
          constructor
          · intro l hl e hgete
            exact h1 l hl e hgete
          · intro r hr
            rcases List.mem_append.mp hr with hold | hnew
            · exact h2 r hold
            · have hre : r = { id := db.next_id, sender_id := sender_id,
                               recipient_id := request_data.recipient_id,
                               daily_entry_id := request_data.daily_entry_id,
                               message := request_data.message,
                               status := MessageStatus.pending,
                               created_at := db.now, responded_at := none } := by
                simpa using hnew
              subst hre
              dsimp only
              have hlike : (db.reflection_likes.find?
                  (likeProbe sender_id request_data.daily_entry_id)).isSome = true := by
                have : user_has_liked_entry sender_id request_data.daily_entry_id db =
                    true := by
                  by_contra hcc
                  apply hlk
                  simp [Bool.not_eq_true] at hcc
                  simp [hcc]
                exact this
              obtain ⟨l0, hl0⟩ := Option.isSome_iff_exists.mp hlike
              have hl0mem : l0 ∈ db.reflection_likes := List.mem_of_find?_eq_some hl0
              have hl0p := List.find?_some hl0
              have hl0u : l0.user_id = sender_id := by
                unfold likeProbe at hl0p
                exact (by simpa using hl0p : l0.user_id = sender_id ∧
                  l0.daily_entry_id = request_data.daily_entry_id).1
              have hl0e : l0.daily_entry_id = request_data.daily_entry_id := by
                unfold likeProbe at hl0p
                exact (by simpa using hl0p : l0.user_id = sender_id ∧
                  l0.daily_entry_id = request_data.daily_entry_id).2
              have hauthor : entry.author_id ≠ l0.user_id := by
                apply h1 l0 hl0mem entry
                rw [hl0e]
                exact hE
              have hrecip : entry.author_id = request_data.recipient_id := by
                have hg' := hg
                simp at hg'
                exact hg'.2
              rw [← hrecip]
              intro hcontra
              apply hauthor
              rw [hl0u, hcontra]

end SocialService

namespace SocialService

/-- C10: in every store reachable through `toggle_like` and
`send_contact_request` from a state with no likes and no contact requests,
no contact-request row has `sender_id` equal to `recipient_id`: a request
needs a prior like by the sender on the entry, the recipient must be the
entry's author, and `toggle_like` never creates a like by the author. -/
theorem no_self_contact_request (db : DB) (h : SocialReachable db) :
    noSelfRequests db := by
  have main : likesHonest db ∧ noSelfRequests db := by
    induction h with
    | init db h1 h2 =>
      constructor
      · intro l hl
        rw [h1] at hl
        exact absurd hl (List.not_mem_nil l)
      · intro r hr
        rw [h2] at hr
        exact absurd hr (List.not_mem_nil r)
    | step db db' hreach hstep ih =>
      cases hstep with
      | toggle user_id entry_id db =>
        exact toggle_like_preserves_inv user_id entry_id db ih.1 ih.2
      | send sender_id request_data db =>
        exact send_contact_request_preserves_inv sender_id request_data db ih.1 ih.2
      | tick db t =>
        refine ⟨?_, fun r hr => ih.2 r hr⟩
        intro l hl e hgete
        exact ih.1 l hl e hgete
  exact main.2

/-- Witness for C10 on the reachable store where user 2 likes entry 10 of
`dbBase` and then sends a contact request for it. -/
theorem no_self_contact_request_witness :
    noSelfRequests
      (send_contact_request 2
        { recipient_id := 1, daily_entry_id := 10, message := "w" }
        (toggle_like 2 10 dbBase).2).2 :=
  no_self_contact_request _
    (SocialReachable.step _ _
      (SocialReachable.step _ _ (SocialReachable.init dbBase rfl rfl)
        (SocialStep.toggle 2 10 dbBase))
      (SocialStep.send 2 { recipient_id := 1, daily_entry_id := 10, message := "w" }
        (toggle_like 2 10 dbBase).2))

end SocialService

namespace SocialService

/-- Unordered pair membership is symmetric in the two users. -/
theorem pairMatches_comm (a b : Nat) (c : Conversation) :
    pairMatches a b c = pairMatches b a c := by
  unfold pairMatches
  rw [Bool.or_comm]

/-- The row count between a pair does not depend on its orientation. -/
theorem conversationsBetween_comm (a b : Nat) (db : DB) :
    conversationsBetween a b db = conversationsBetween b a db := by
  unfold conversationsBetween
  rw [List.filter_congr (fun c _ => pairMatches_comm a b c)]

/-- A canonically-stored (min, max) row matches its unordered pair. -/
theorem pairMatches_minmax (u v : Nat) (c : Conversation)
    (h1 : c.user1_id = min u v) (h2 : c.user2_id = max u v) :
    pairMatches u v c = true := by
  unfold pairMatches
  rcases le_total u v with h | h
  · simp [h1, h2, min_eq_left h, max_eq_right h]
  · simp [h1, h2, min_eq_right h, max_eq_left h]

/-- A lower-id-first row matching an unordered pair stores exactly
(min, max) of that pair. -/
theorem pairMatches_canonical (u v : Nat) (c : Conversation)
    (hcan : c.user1_id ≤ c.user2_id) (h : pairMatches u v c = true) :
    c.user1_id = min u v ∧ c.user2_id = max u v := by
  unfold pairMatches at h
  simp only [Bool.or_eq_true, Bool.and_eq_true, beq_iff_eq] at h
  rcases h with ⟨ha, hb⟩ | ⟨ha, hb⟩
  · subst ha
    subst hb
    exact ⟨(min_eq_left hcan).symm, (max_eq_right hcan).symm⟩
  · subst ha
    subst hb
    exact ⟨(min_eq_right hcan).symm, (max_eq_left hcan).symm⟩

/-- `_create_conversation` on a store whose rows are canonical and hold at
most one row for the pair leaves exactly one canonical row for the pair and
preserves canonicity. -/
theorem create_conversation_between (u v : Nat) (db : DB)
    (hcanon : canonicalPairs db) (hle : conversationsBetween u v db ≤ 1) :
    conversationsBetween u v (create_conversation u v db).2 = 1 ∧
    canonicalPairs (create_conversation u v db).2 ∧
    ∃ c ∈ ((create_conversation u v db).2).conversations,
      c.user1_id = min u v ∧ c.user2_id = max u v := by
  have hab : (if u > v then v else u) = min u v := by
    rcases Nat.lt_or_ge v u with h | h
    · rw [if_pos h]
      exact (min_eq_right (le_of_lt h)).symm
    · rw [if_neg (by omega)]
      exact (min_eq_left h).symm
  have hbb : (if u > v then u else v) = max u v := by
    rcases Nat.lt_or_ge v u with h | h
    · rw [if_pos h]
      exact (max_eq_left (le_of_lt h)).symm
    · rw [if_neg (by omega)]
      exact (max_eq_right h).symm
  unfold create_conversation
  dsimp only
  rw [hab, hbb]
  cases hF : db.conversations.find?
      (fun c => c.user1_id == min u v && c.user2_id == max u v) with
  | some c0 =>
    dsimp only
    have hc0p := List.find?_some hF
    have hmem := List.mem_of_find?_eq_some hF
    have hc01 : c0.user1_id = min u v := by
      simp only [Bool.and_eq_true, beq_iff_eq] at hc0p
      exact hc0p.1
    have hc02 : c0.user2_id = max u v := by
      simp only [Bool.and_eq_true, beq_iff_eq] at hc0p
      exact hc0p.2
    refine ⟨?_, hcanon, c0, hmem, hc01, hc02⟩
    have hpm : pairMatches u v c0 = true := pairMatches_minmax u v c0 hc01 hc02
    have hge : 0 < conversationsBetween u v db := by
      unfold conversationsBetween
      exact List.length_pos_of_mem (List.mem_filter.mpr ⟨hmem, hpm⟩)
    omega
  | none =>
    dsimp only
    have hnil : db.conversations.filter (pairMatches u v) = [] := by
      rw [List.filter_eq_nil_iff]
      intro c hc hpm
      have := pairMatches_canonical u v c (hcanon c hc) hpm
      have hn := List.find?_eq_none.mp hF c hc
      apply hn
      simp [this.1, this.2]
    refine ⟨?_, ?_, ?_⟩
    · unfold conversationsBetween
      dsimp only
      rw [List.filter_append, hnil]
      have : pairMatches u v
          ({ id := db.next_id, user1_id := min u v, user2_id := max u v,
             status := ConversationStatus.active, created_at := db.now,
             last_message_at := none } : Conversation) = true := by
        apply pairMatches_minmax <;> rfl
      simp [this]
    · intro c hc
      rcases List.mem_append.mp hc with hold | hnew
      · exact hcanon c hold
      · have : c = { id := db.next_id, user1_id := min u v, user2_id := max u v,
                     status := ConversationStatus.active, created_at := db.now,
                     last_message_at := none } := by simpa using hnew
        subst this
        exact min_le_max
    · refine ⟨{ id := db.next_id, user1_id := min u v, user2_id := max u v,
                status := ConversationStatus.active, created_at := db.now,
                last_message_at := none }, ?_, rfl, rfl⟩
      exact List.mem_append.mpr (Or.inr (by simp))

end SocialService

namespace SocialService

/-- `respond_to_contact_request` never touches the user table. -/
theorem respond_users (request_id recipient_id : Nat) (accept : Bool) (db : DB) :
    ((respond_to_contact_request request_id recipient_id accept db).2).users =
      db.users := by
  unfold respond_to_contact_request
  cases hr : getRequest db request_id with
  | none => rfl
  | some r =>
    dsimp only
    split
    · rfl
    · dsimp only
      split
      · rw [create_conversation_users]
      · rfl

/-- A user id present in the user table resolves under `getUser`. -/
theorem getUser_mem_isSome (db : DB) (x : Nat) (h : ∃ u ∈ db.users, u.id = x) :
    ∃ ou, getUser db x = some ou := by
  apply Option.isSome_iff_exists.mp
  apply List.find?_isSome.mpr
  obtain ⟨u, hu, he⟩ := h
  exact ⟨u, hu, by simp [he]⟩

/-- Accepting a request ensures exactly one canonical conversation row
between sender and recipient, assuming the canonical-pair invariant and at
most one prior row for the pair. -/
theorem respond_accept_between (request_id recipient_id : Nat) (db : DB)
    (r : ContactRequest) (hr : getRequest db request_id = some r)
    (hrec : r.recipient_id = recipient_id) (hcanon : canonicalPairs db)
    (hle : conversationsBetween r.sender_id recipient_id db ≤ 1) :
    conversationsBetween r.sender_id recipient_id
      (respond_to_contact_request request_id recipient_id true db).2 = 1 ∧
    canonicalPairs (respond_to_contact_request request_id recipient_id true db).2 ∧
    ∃ c ∈ ((respond_to_contact_request request_id recipient_id true db).2).conversations,
      c.user1_id = min r.sender_id recipient_id ∧
      c.user2_id = max r.sender_id recipient_id := by
  unfold respond_to_contact_request
  rw [hr]
  dsimp only
  rw [if_neg (by simp [hrec])]
  dsimp only
  rw [if_pos rfl]
  exact create_conversation_between r.sender_id recipient_id _ hcanon hle

end SocialService

namespace SocialService

/-- C2: accepting a pending request addressed to its recipient leaves
exactly one conversation row between sender and recipient, stored with the
lower user id first; both participants' `get_user_conversations` lists
contain that same conversation id (given both user records exist); and
accepting any further request between the same unordered pair keeps the
count at one — the existing row is reused, no duplicate is created. -/
theorem respond_accept_unique_conversation (request_id : Nat) (db : DB)
    (r : ContactRequest) (hr : getRequest db request_id = some r)
    (_hpend : r.status = MessageStatus.pending)
    (hne : r.sender_id ≠ r.recipient_id)
    (hsu : ∃ u ∈ db.users, u.id = r.sender_id)
    (hru : ∃ u ∈ db.users, u.id = r.recipient_id)
    (hcanon : canonicalPairs db)
    (hle : conversationsBetween r.sender_id r.recipient_id db ≤ 1) :
    conversationsBetween r.sender_id r.recipient_id
      (respond_to_contact_request request_id r.recipient_id true db).2 = 1 ∧
    (∃ c ∈ ((respond_to_contact_request request_id r.recipient_id true db).2).conversations,
      c.user1_id = min r.sender_id r.recipient_id ∧
      c.user2_id = max r.sender_id r.recipient_id ∧
      (∃ resp ∈ get_user_conversations r.sender_id
          (respond_to_contact_request request_id r.recipient_id true db).2,
        resp.id = c.id) ∧
      (∃ resp ∈ get_user_conversations r.recipient_id
          (respond_to_contact_request request_id r.recipient_id true db).2,
        resp.id = c.id)) ∧
    (∀ rid2 r2,
      getRequest (respond_to_contact_request request_id r.recipient_id true db).2
        rid2 = some r2 →
      ((r2.sender_id = r.sender_id ∧ r2.recipient_id = r.recipient_id) ∨
        (r2.sender_id = r.recipient_id ∧ r2.recipient_id = r.sender_id)) →
      conversationsBetween r.sender_id r.recipient_id
        (respond_to_contact_request rid2 r2.recipient_id true
          (respond_to_contact_request request_id r.recipient_id true db).2).2 = 1) := by
  obtain ⟨h1, hcanon', c, hcmem, hc1, hc2⟩ :=
    respond_accept_between request_id r.recipient_id db r hr rfl hcanon hle
  have husers :
      ((respond_to_contact_request request_id r.recipient_id true db).2).users =
        db.users := respond_users request_id r.recipient_id true db
  refine ⟨h1, ⟨c, hcmem, hc1, hc2, ?_, ?_⟩, ?_⟩
  · -- the conversation id appears in the sender's list
    have hpart : c.user1_id = r.sender_id ∨ c.user2_id = r.sender_id := by
      rcases le_total r.sender_id r.recipient_id with h | h
      · left
        rw [hc1]
        exact min_eq_left h
      · right
        rw [hc2]
        exact max_eq_left h
    have hother : (if c.user1_id == r.sender_id then c.user2_id else c.user1_id) =
        r.recipient_id := by
      rcases le_total r.sender_id r.recipient_id with h | h
      · rw [hc1, hc2, min_eq_left h, max_eq_right h]
        simp
      · rw [hc1, hc2, min_eq_right h, max_eq_left h]
        simp [Ne.symm hne]
    obtain ⟨ou, hou⟩ := getUser_mem_isSome
      (respond_to_contact_request request_id r.recipient_id true db).2
      r.recipient_id (by rw [husers]; exact hru)
    exact conversations_list_mem _ r.sender_id c ou hcmem hpart
      (by rw [hother]; exact hou)
  · -- the conversation id appears in the recipient's list
    have hpart : c.user1_id = r.recipient_id ∨ c.user2_id = r.recipient_id := by
      rcases le_total r.sender_id r.recipient_id with h | h
      · right
        rw [hc2]
        exact max_eq_right h
      · left
        rw [hc1]
        exact min_eq_right h
    have hother : (if c.user1_id == r.recipient_id then c.user2_id else c.user1_id) =
        r.sender_id := by
      rcases le_total r.sender_id r.recipient_id with h | h
      · rw [hc1, hc2, min_eq_left h, max_eq_right h]
        simp [hne]
      · rw [hc1, hc2, min_eq_right h, max_eq_left h]
        simp
    obtain ⟨ou, hou⟩ := getUser_mem_isSome
      (respond_to_contact_request request_id r.recipient_id true db).2
      r.sender_id (by rw [husers]; exact hsu)
    exact conversations_list_mem _ r.recipient_id c ou hcmem hpart
      (by rw [hother]; exact hou)
  · -- a further accepted request over the same pair keeps the count at 1
    intro rid2 r2 hr2 hpair
    have hle2 : conversationsBetween r2.sender_id r2.recipient_id
        (respond_to_contact_request request_id r.recipient_id true db).2 ≤ 1 := by
      rcases hpair with ⟨hs, hp⟩ | ⟨hs, hp⟩
      · rw [hs, hp, h1]
      · rw [hs, hp, conversationsBetween_comm, h1]
    obtain ⟨h1'', _, _⟩ :=
      respond_accept_between rid2 r2.recipient_id _ r2 hr2 rfl hcanon' hle2
    have hXgen : ∀ Xdb : DB,
        conversationsBetween r2.sender_id r2.recipient_id Xdb = 1 →
        conversationsBetween r.sender_id r.recipient_id Xdb = 1 := by
      intro Xdb hX
      rcases hpair with ⟨hs, hp⟩ | ⟨hs, hp⟩
      · rw [← hs, ← hp]
        exact hX
      · rw [conversationsBetween_comm, ← hs, ← hp]
        exact hX
    exact hXgen _ h1''

end SocialService

namespace SocialService

/-- Witness for C2 at the pending request 20 of `dbRequested`. -/
theorem respond_accept_unique_conversation_witness :
    conversationsBetween reqPending.sender_id reqPending.recipient_id
      (respond_to_contact_request 20 reqPending.recipient_id true dbRequested).2 = 1 ∧
    (∃ c ∈ ((respond_to_contact_request 20 reqPending.recipient_id true
        dbRequested).2).conversations,
      c.user1_id = min reqPending.sender_id reqPending.recipient_id ∧
      c.user2_id = max reqPending.sender_id reqPending.recipient_id ∧
      (∃ resp ∈ get_user_conversations reqPending.sender_id
          (respond_to_contact_request 20 reqPending.recipient_id true dbRequested).2,
        resp.id = c.id) ∧
      (∃ resp ∈ get_user_conversations reqPending.recipient_id
          (respond_to_contact_request 20 reqPending.recipient_id true dbRequested).2,
        resp.id = c.id)) ∧
    (∀ rid2 r2,
      getRequest (respond_to_contact_request 20 reqPending.recipient_id true
        dbRequested).2 rid2 = some r2 →
      ((r2.sender_id = reqPending.sender_id ∧
          r2.recipient_id = reqPending.recipient_id) ∨
        (r2.sender_id = reqPending.recipient_id ∧
          r2.recipient_id = reqPending.sender_id)) →
      conversationsBetween reqPending.sender_id reqPending.recipient_id
        (respond_to_contact_request rid2 r2.recipient_id true
          (respond_to_contact_request 20 reqPending.recipient_id true
            dbRequested).2).2 = 1) :=
  respond_accept_unique_conversation 20 dbRequested reqPending (by decide)
    (by decide) (by decide) (by decide) (by decide)
    (by unfold canonicalPairs; decide) (by decide)

end SocialService

namespace SocialService

/-- C7: for a nonexistent conversation id or a non-participant requester,
`get_conversation_messages` returns the empty list; for a participant it
returns rows sorted by ascending creation time, of length
`min limit (number of joined rows)`, each row coming from the
conversation's (message, sender) join — in any insertion interleaving —
and every returned row is at least as recent as every joined row that was
left out (the most-recent `limit` rows). -/
theorem get_conversation_messages_spec (conversation_id user_id limit : Nat)
    (db : DB) :
    (getConversation db conversation_id = none →
      get_conversation_messages conversation_id user_id limit db = []) ∧
    (∀ conv, getConversation db conversation_id = some conv →
      user_id ≠ conv.user1_id → user_id ≠ conv.user2_id →
      get_conversation_messages conversation_id user_id limit db = []) ∧
    (∀ conv, getConversation db conversation_id = some conv →
      (user_id = conv.user1_id ∨ user_id = conv.user2_id) →
      List.Pairwise (fun x y => x.created_at ≤ y.created_at)
        (get_conversation_messages conversation_id user_id limit db) ∧
      (get_conversation_messages conversation_id user_id limit db).length =
        min limit (joinedMessages db conversation_id).length ∧
      (∀ x ∈ get_conversation_messages conversation_id user_id limit db,
        ∃ p ∈ joinedMessages db conversation_id, messageResponse p = x) ∧
      (∀ x ∈ get_conversation_messages conversation_id user_id limit db,
        ∀ p ∈ joinedMessages db conversation_id,
          messageResponse p ∉
            get_conversation_messages conversation_id user_id limit db →
          p.1.created_at ≤ x.created_at)) := by
  refine ⟨?_, ?_, ?_⟩
  · intro h
    unfold get_conversation_messages
    rw [h]
  · intro conv hc h1 h2
    unfold get_conversation_messages
    rw [hc]
    dsimp only
    rw [if_pos (by simp [h1, h2])]
  · intro conv hc hpart
    have hres : get_conversation_messages conversation_id user_id limit db =
        (((List.insertionSort laterFirst
          (joinedMessages db conversation_id)).take limit).map
          messageResponse).reverse := by
      unfold get_conversation_messages
      rw [hc]
      dsimp only
      rw [if_neg (by rcases hpart with h | h <;> simp [h])]
    have hsorted : List.Pairwise laterFirst
        (List.insertionSort laterFirst (joinedMessages db conversation_id)) :=
      List.sorted_insertionSort laterFirst (joinedMessages db conversation_id)
    have hperm : (List.insertionSort laterFirst
        (joinedMessages db conversation_id)).Perm
        (joinedMessages db conversation_id) :=
      List.perm_insertionSort laterFirst (joinedMessages db conversation_id)
    refine ⟨?_, ?_, ?_, ?_⟩
    · rw [hres, List.pairwise_reverse, List.pairwise_map]
      exact List.Pairwise.sublist (List.take_sublist limit _) hsorted
    · rw [hres, List.length_reverse, List.length_map, List.length_take,
        hperm.length_eq]
    · intro x hx
      rw [hres, List.mem_reverse, List.mem_map] at hx
      obtain ⟨p, hpmem, hpx⟩ := hx
      exact ⟨p, hperm.subset ((List.take_sublist limit _).mem hpmem), hpx⟩
    · intro x hx p hpj hnot
      have hpS : p ∈ List.insertionSort laterFirst (joinedMessages db conversation_id) :=
        hperm.symm.subset hpj
      have hsplit : (List.insertionSort laterFirst
          (joinedMessages db conversation_id)).take limit ++
          (List.insertionSort laterFirst
            (joinedMessages db conversation_id)).drop limit =
          List.insertionSort laterFirst (joinedMessages db conversation_id) :=
        List.take_append_drop limit _
      have hp2 : p ∈ (List.insertionSort laterFirst
          (joinedMessages db conversation_id)).take limit ∨
          p ∈ (List.insertionSort laterFirst
            (joinedMessages db conversation_id)).drop limit := by
        rw [← hsplit] at hpS
        exact List.mem_append.mp hpS
      rcases hp2 with hin | hdrop
      · exact absurd (by
          rw [hres, List.mem_reverse]
          exact List.mem_map_of_mem messageResponse hin) hnot
      · rw [hres, List.mem_reverse, List.mem_map] at hx
        obtain ⟨q, hqmem, hqx⟩ := hx
        have hrel : laterFirst q p := by
          have hpw := (List.pairwise_append.mp
            (by rw [hsplit]; exact hsorted)).2.2
          exact hpw q hqmem p hdrop
        rw [← hqx]
        exact hrel

end SocialService

namespace SocialService

/-- Witness for C7 at participant 1 of conversation 30 in `dbMsgs` with
limit 1. -/
theorem get_conversation_messages_spec_witness :
    List.Pairwise (fun x y => x.created_at ≤ y.created_at)
      (get_conversation_messages 30 1 1 dbMsgs) ∧
    (get_conversation_messages 30 1 1 dbMsgs).length =
      min 1 (joinedMessages dbMsgs 30).length ∧
    (∀ x ∈ get_conversation_messages 30 1 1 dbMsgs,
      ∃ p ∈ joinedMessages dbMsgs 30, messageResponse p = x) ∧
    (∀ x ∈ get_conversation_messages 30 1 1 dbMsgs,
      ∀ p ∈ joinedMessages dbMsgs 30,
        messageResponse p ∉ get_conversation_messages 30 1 1 dbMsgs →
        p.1.created_at ≤ x.created_at) :=
  (get_conversation_messages_spec 30 1 1 dbMsgs).2.2 convAB (by decide) (by decide)

end SocialService
